import Mathlib

/-!
# Verification of the garm docker provider's lifecycle mapping layer

Shallow embedding of the provider's core logic (container lifecycle mapping,
scope extraction, registry-auth resolution, configuration defaults) translated
from the Go source:

* `internal/provider` (CreateInstance, DeleteInstance, GetInstance,
  ListInstances, RemoveAllInstances and their helpers `containerToAddresses`,
  `containerToInstance`, `containerSummaryToInstance`, `getRegistryAuth`);
* `internal/spec/spec.go` (`ExtractGitHubScopeDetails`, `GetRunnerEnvs`,
  `GetContainerLabels`);
* `pkg/config/config.go` (`NewConfig`, `setDefaults`).

External collaborators (the docker engine, `net/url.Parse`, the filesystem,
JSON and base64 codecs) are represented by oracle parameters: functions whose
results the embedded code consumes exactly where the Go code consumes the
corresponding call results.  Engine calls made by `CreateInstance` and
`RemoveAllInstances` are additionally recorded in a trace so that call-order
properties can be stated.
-/

namespace GarmDocker

/-! ## Data model (garm params and docker API shapes, fields the code uses) -/

/-- `params.InstanceStatus` values used by the provider. -/
inductive InstanceStatus where
  | running
  | stopped
  | error
  | unknown
deriving DecidableEq, Repr

/-- `params.Address`; the provider only ever emits `params.PrivateAddress`,
modelled by the string `"private"` in `addrType`. -/
structure Address where
  Address : String
  addrType : String
deriving DecidableEq, Repr

/-- `params.ProviderInstance`, the fields the provider writes. -/
structure ProviderInstance where
  ProviderID : String
  Name : String
  Status : InstanceStatus
  OSType : String
  OSArch : String
  OSName : String
  OSVersion : String
  Addresses : List Address
deriving DecidableEq, Repr

/-- `params.BootstrapInstance`, the fields the provider reads. -/
structure BootstrapInstance where
  Name : String
  Image : String
  RepoURL : String
  PoolID : String
  Flavor : String
  OSType : String
  OSArch : String
  Labels : List String
  GitHubRunnerGroup : String
  MetadataURL : String
  InstanceToken : String
  CallbackURL : String
deriving DecidableEq, Repr

/-- docker `network.EndpointSettings`, the fields read by
`containerToAddresses`. -/
structure EndpointSettings where
  IPAddress : String
  GlobalIPv6Address : String
deriving DecidableEq, Repr

/-- docker `types.NetworkSettings`: the `Networks` map, modelled as an
association list from network name to endpoint settings. -/
structure NetworkSettings where
  Networks : List (String × EndpointSettings)
deriving DecidableEq, Repr

/-- docker `types.ContainerState`, the fields read by `containerToInstance`. -/
structure ContainerState where
  Running : Bool
  Paused : Bool
  Dead : Bool
  OOMKilled : Bool
deriving DecidableEq, Repr

/-- docker `types.ContainerJSON` (full inspect response), the fields the
provider reads.  `State` and `NetworkSettings` are pointers in Go, hence
`Option`; `ConfigLabels` stands for `c.Config.Labels`. -/
structure ContainerJSON where
  ID : String
  Name : String
  State : Option ContainerState
  ConfigLabels : List (String × String)
  NetworkSettings : Option NetworkSettings
deriving DecidableEq, Repr

/-- docker `types.Container` (list-summary shape), the fields the provider
reads. -/
structure Container where
  ID : String
  Names : List String
  State : String
  Labels : List (String × String)
deriving DecidableEq, Repr

/-- `spec.GitHubScopeDetails`. -/
structure GitHubScopeDetails where
  BaseURL : String
  Repo : String
  Org : String
  Enterprise : String
deriving DecidableEq, Repr

/-- `config.ProviderConfig` (pkg/config/config.go).  `DockerConfigPath` is the
`docker_config_path` option read by `getRegistryAuth`. -/
structure ProviderConfig where
  DockerHost : String
  Runtime : String
  Network : String
  RemoveVolumes : Bool
  Privileged : Bool
  Binds : List String
  AlwaysPull : Bool
  DockerConfigPath : String
deriving DecidableEq, Repr

/-! ## Label constants (internal/spec/spec.go) -/

def GarmInstanceNameLabel : String := "garm.runner/instance-name"
def GarmControllerIDLabel : String := "garm.runner/controller-id"
def GarmPoolIDLabel : String := "garm.runner/pool-id"
def GarmFlavorLabel : String := "garm.runner/flavor"
def GarmOSTypeLabel : String := "garm.runner/os-type"
def GarmOSArchLabel : String := "garm.runner/os-arch"

/-- Go map read `m[k]` on a `map[string]string`: the stored value, or the zero
value `""` when the key is absent. -/
def lookupLabel (labels : List (String × String)) (key : String) : String :=
  (labels.lookup key).getD ""

/-! ## Scope extraction (internal/spec/spec.go) -/

/-- The components of a parsed URL that `ExtractGitHubScopeDetails` reads from
the `net/url.URL` value: `u.Scheme`, `u.Host`, `u.Path`. -/
structure URL where
  Scheme : String
  Host : String
  Path : String
deriving DecidableEq, Repr

/-- Go `strings.Trim(s, cutset)` for a single-character cutset: removes all
leading and trailing occurrences of `c`. -/
def trimChar (s : String) (c : Char) : String :=
  String.mk (((s.toList.dropWhile (· == c)).reverse.dropWhile (· == c)).reverse)

/-- Go `strings.Split(s, sep)` for a single-character separator, accumulator
form: splits around each occurrence of `sep`; splitting the empty string
yields `[""]`. -/
def stringsSplitAux (sep : Char) : List Char → List Char → List String
  | [], acc => [String.mk acc.reverse]
  | c :: cs, acc =>
    if c = sep then String.mk acc.reverse :: stringsSplitAux sep cs []
    else stringsSplitAux sep cs (c :: acc)

/-- Go `strings.Split(s, sep)` for a single-character separator. -/
def stringsSplit (s : String) (sep : Char) : List String :=
  stringsSplitAux sep s.toList []

/-- `spec.ExtractGitHubScopeDetails`.  `net/url.Parse` is an external library
call, represented by the oracle `parseURL`; `none` stands for a parse error. -/
def extractGitHubScopeDetails (parseURL : String → Option URL)
    (gitRepoURL : String) : Except String GitHubScopeDetails :=
  if gitRepoURL = "" then .error "no gitRepoURL supplied"
  else
    match parseURL gitRepoURL with
    | none => .error ("invalid URL: " ++ gitRepoURL)
    | some u =>
      if u.Scheme = "" ∨ u.Host = "" then .error ("invalid URL: " ++ gitRepoURL)
      else
        let pathParts := stringsSplit (trimChar u.Path '/') '/'
        let scope : GitHubScopeDetails :=
          { BaseURL := u.Scheme ++ "://" ++ u.Host
            Repo := "", Org := "", Enterprise := "" }
        if pathParts.length = 1 then
          .ok { scope with Org := pathParts.headD "" }
        else if pathParts.length = 2 ∧ pathParts.headD "" = "enterprises" then
          .ok { scope with Enterprise := pathParts.getD 1 "" }
        else if pathParts.length = 2 then
          .ok { scope with Org := pathParts.headD "", Repo := pathParts.getD 1 "" }
        else
          .error "URL does not match the expected patterns"

/-- `spec.GetRunnerEnvs`. -/
def getRunnerEnvs (parseURL : String → Option URL) (bp : BootstrapInstance) :
    Except String (List String) :=
  match extractGitHubScopeDetails parseURL bp.RepoURL with
  | .error e => .error e
  | .ok gitHubScope =>
    .ok
      [ "RUNNER_ORG=" ++ gitHubScope.Org
      , "RUNNER_REPO=" ++ gitHubScope.Repo
      , "RUNNER_ENTERPRISE=" ++ gitHubScope.Enterprise
      , "RUNNER_GROUP=" ++ bp.GitHubRunnerGroup
      , "RUNNER_NAME=" ++ bp.Name
      , "RUNNER_LABELS=" ++ String.intercalate "," bp.Labels
      , "RUNNER_NO_DEFAULT_LABELS=true"
      , "DISABLE_RUNNER_UPDATE=true"
      , "RUNNER_WORKDIR=/runner/_work/"
      , "GITHUB_URL=" ++ gitHubScope.BaseURL
      , "RUNNER_EPHEMERAL=true"
      , "RUNNER_TOKEN=dummy"
      , "METADATA_URL=" ++ bp.MetadataURL
      , "BEARER_TOKEN=" ++ bp.InstanceToken
      , "CALLBACK_URL=" ++ bp.CallbackURL
      ]

/-- `spec.GetContainerLabels`, as an association list in insertion order. -/
def getContainerLabels (controllerID : String) (bp : BootstrapInstance) :
    List (String × String) :=
  [ (GarmInstanceNameLabel, bp.Name)
  , (GarmControllerIDLabel, controllerID)
  , (GarmPoolIDLabel, bp.PoolID)
  , (GarmFlavorLabel, bp.Flavor)
  , (GarmOSTypeLabel, bp.OSType)
  , (GarmOSArchLabel, bp.OSArch)
  ]

/-! ## Configuration loading (pkg/config/config.go) -/

/-- `config.setDefaults`. -/
def setDefaults (c : ProviderConfig) : ProviderConfig :=
  let c := if c.DockerHost = "" then { c with DockerHost := "unix:///var/run/docker.sock" } else c
  let c := if c.Runtime = "" then { c with Runtime := "sysbox-runc" } else c
  let c := if c.Network = "" then { c with Network := "bridge" } else c
  -- Go: `if !Config.RemoveVolumes { Config.RemoveVolumes = true }`
  if !c.RemoveVolumes then { c with RemoveVolumes := true } else c

/-- `config.NewConfig`.  The koanf file load and unmarshal are external
library calls, represented by the oracles `loadResult` (the outcome of
`k.Load`, consulted only when `path` is non-empty) and `unmarshalResult`
(the `ProviderConfig` produced by `k.Unmarshal`, or its error). -/
def newConfig (path : String) (loadResult : Except String Unit)
    (unmarshalResult : Except String ProviderConfig) :
    Except String ProviderConfig :=
  match (if path ≠ "" then loadResult else .ok ()) with
  | .error e => .error ("failed to load config: " ++ e)
  | .ok _ =>
    match unmarshalResult with
    | .error e => .error ("failed to unmarshal config: " ++ e)
    | .ok c => .ok (setDefaults c)

/-! ## The provider's engine-facing operations (internal/provider)

The docker client is an external collaborator; each of its methods is an
oracle field of `DockerClient`.  `CreateInstance` and `RemoveAllInstances`
additionally record the engine calls they issue, in order, so that call-order
properties can be stated. -/

/-- An image-inspect failure: docker's not-found error versus any other
engine error (Go distinguishes them with `client.IsErrNotFound`). -/
inductive InspectErr where
  | notFound
  | other (e : String)
deriving DecidableEq, Repr

/-- A container-remove failure: not-found versus any other engine error. -/
inductive RemoveErr where
  | notFound
  | other (e : String)
deriving DecidableEq, Repr

/-- `container.Config`, the fields `CreateInstance` writes. -/
structure ContainerConfig where
  Image : String
  Env : List String
  Labels : List (String × String)
deriving DecidableEq, Repr

/-- `container.HostConfig`, the fields `CreateInstance` writes.
`CgroupnsModeHost` stands for `CgroupnsMode = host`; `MountVarLibDocker`
stands for the anonymous volume mounted at `/var/lib/docker`. -/
structure HostConfig where
  Runtime : String
  NetworkMode : String
  Privileged : Bool
  Binds : List String
  CgroupnsModeHost : Bool
  MountVarLibDocker : Bool
deriving DecidableEq, Repr

/-- One call issued to the docker engine by `CreateInstance`. -/
inductive EngineCall where
  | imageInspect (ref : String)
  | imagePull (ref : String)
  | containerCreate (name : String)
  | containerStart (id : String)
  | containerInspect (id : String)
deriving DecidableEq, Repr

/-- The docker client interface, as consumed by the provider: each method's
outcome is an oracle.  `imagePull` receives the registry-auth string placed in
the pull options (empty when no credentials were resolved); `containerCreate`
returns the created container's ID. -/
structure DockerClient where
  imageInspectWithRaw : String → Except InspectErr Unit
  imagePull : String → String → Except String Unit
  containerCreate : ContainerConfig → HostConfig → String → Except String String
  containerStart : String → Except String Unit
  containerInspect : String → Except String ContainerJSON

/-- `containerToAddresses`: one address per non-empty IPv4 and per non-empty
IPv6 address across the attached networks, written as the Go loop appends
them. -/
def containerToAddresses (c : ContainerJSON) : List Address :=
  match c.NetworkSettings with
  | none => []
  | some ns =>
    ns.Networks.foldl
      (fun addrs nw =>
        let addrs :=
          if nw.2.IPAddress ≠ "" then
            addrs ++ [{ Address := nw.2.IPAddress, addrType := "private" }]
          else addrs
        if nw.2.GlobalIPv6Address ≠ "" then
          addrs ++ [{ Address := nw.2.GlobalIPv6Address, addrType := "private" }]
        else addrs)
      []

/-- `Provider.CreateInstance`.  Returns the Go result together with the trace
of engine calls issued.  `registryAuth` is the result of `getRegistryAuth`
for a given image (consulted only on the pull path), `parseURL` the URL-parse
oracle used by env generation. -/
def createInstance (cfg : ProviderConfig) (controllerID : String)
    (cli : DockerClient) (parseURL : String → Option URL)
    (registryAuth : String → String) (bp : BootstrapInstance) :
    Except String ProviderInstance × List EngineCall :=
  -- 1. Check/Pull Image
  let inspectTrace : List EngineCall :=
    if cfg.AlwaysPull then [] else [.imageInspect bp.Image]
  let needsPullResult : Except String Bool :=
    if cfg.AlwaysPull then .ok true
    else
      match cli.imageInspectWithRaw bp.Image with
      | .ok _ => .ok false
      | .error .notFound => .ok true
      | .error (.other e) =>
        .error ("failed to inspect image " ++ bp.Image ++ ": " ++ e)
  match needsPullResult with
  | .error e => (.error e, inspectTrace)
  | .ok needsPull =>
    let pullTrace : List EngineCall :=
      if needsPull then [.imagePull bp.Image] else []
    let pullResult : Except String Unit :=
      if needsPull then
        match cli.imagePull bp.Image (registryAuth bp.Image) with
        | .ok _ => .ok ()
        | .error e => .error ("failed to pull image " ++ bp.Image ++ ": " ++ e)
      else .ok ()
    match pullResult with
    | .error e => (.error e, inspectTrace ++ pullTrace)
    | .ok _ =>
      -- 2. Prepare Config
      match getRunnerEnvs parseURL bp with
      | .error e => (.error ("failed to generate envs: " ++ e), inspectTrace ++ pullTrace)
      | .ok envs =>
        let labels := getContainerLabels controllerID bp
        let containerConfig : ContainerConfig :=
          { Image := bp.Image, Env := envs, Labels := labels }
        let hostConfig : HostConfig :=
          { Runtime := cfg.Runtime
            NetworkMode := cfg.Network
            Privileged := cfg.Privileged
            Binds := cfg.Binds
            CgroupnsModeHost := cfg.Privileged
            MountVarLibDocker := cfg.Privileged }
        -- 3. Create Container
        match cli.containerCreate containerConfig hostConfig bp.Name with
        | .error e =>
          (.error ("failed to create container: " ++ e),
            inspectTrace ++ pullTrace ++ [.containerCreate bp.Name])
        | .ok respID =>
          -- 4. Start Container
          match cli.containerStart respID with
          | .error e =>
            (.error ("failed to start container: " ++ e),
              inspectTrace ++ pullTrace ++ [.containerCreate bp.Name, .containerStart respID])
          | .ok _ =>
            -- 5. Get Container Info (for IP)
            match cli.containerInspect respID with
            | .error e =>
              (.error ("failed to inspect container after start: " ++ e),
                inspectTrace ++ pullTrace ++
                  [.containerCreate bp.Name, .containerStart respID, .containerInspect respID])
            | .ok inspect =>
              -- 6. Return Instance
              (.ok
                { ProviderID := inspect.ID
                  Name := bp.Name
                  Status := .running
                  OSType := bp.OSType
                  OSArch := bp.OSArch
                  OSName := "linux"
                  OSVersion := "unknown"
                  Addresses := containerToAddresses inspect },
                inspectTrace ++ pullTrace ++
                  [.containerCreate bp.Name, .containerStart respID, .containerInspect respID])

/-- `Provider.DeleteInstance`.  `remove` is the `ContainerRemove` oracle,
taking the container reference, the `Force` flag and the `RemoveVolumes`
flag. -/
def deleteInstance (cfg : ProviderConfig)
    (remove : String → Bool → Bool → Except RemoveErr Unit)
    (instanceRef : String) : Except String Unit :=
  match remove instanceRef true cfg.RemoveVolumes with
  | .ok _ => .ok ()
  | .error .notFound => .ok ()
  | .error (.other e) =>
    .error ("failed to remove container " ++ instanceRef ++ ": " ++ e)

/-- `containerToInstance` (full-inspect state → instance). -/
def containerToInstance (c : ContainerJSON) : ProviderInstance :=
  let status : InstanceStatus :=
    match c.State with
    | none => .unknown
    | some s =>
      if s.Running then .running
      else if s.Paused then .stopped
      else if s.Dead || s.OOMKilled then .error
      else .stopped
  { ProviderID := c.ID
    Name := c.Name
    Status := status
    OSType := lookupLabel c.ConfigLabels GarmOSTypeLabel
    OSArch := lookupLabel c.ConfigLabels GarmOSArchLabel
    OSName := ""
    OSVersion := ""
    Addresses := [] }

/-- `Provider.GetInstance`. -/
def getInstance (cli : DockerClient) (instanceRef : String) :
    Except String ProviderInstance :=
  match cli.containerInspect instanceRef with
  | .error e => .error ("failed to inspect container " ++ instanceRef ++ ": " ++ e)
  | .ok json => .ok (containerToInstance json)

/-- `containerSummaryToInstance` (list-summary shape → instance). -/
def containerSummaryToInstance (c : Container) : ProviderInstance :=
  let status : InstanceStatus :=
    if c.State = "running" then .running
    else if c.State = "exited" then .stopped
    else .unknown
  let name : String :=
    match c.Names with
    | [] => ""
    | n :: _ => if n.length > 0 ∧ n.front = '/' then n.drop 1 else n
  { ProviderID := c.ID
    Name := name
    Status := status
    OSType := lookupLabel c.Labels GarmOSTypeLabel
    OSArch := lookupLabel c.Labels GarmOSArchLabel
    OSName := ""
    OSVersion := ""
    Addresses := [] }

/-- Whether a container satisfies every `label` filter `key=value`:
the docker engine's documented list-filter semantics (external collaborator;
list filters match containers whose labels include each filtered key with the
filtered value). -/
def matchesLabelFilters (filtersArgs : List (String × String)) (c : Container) : Bool :=
  filtersArgs.all fun f => (c.Labels.lookup f.1) == some f.2

/-- The docker engine's `ContainerList` with `All: true` over the engine's
container population: every container, running or stopped, that satisfies all
label filters, in engine order. -/
def engineContainerList (engineContainers : List Container)
    (filtersArgs : List (String × String)) : List Container :=
  engineContainers.filter (matchesLabelFilters filtersArgs)

/-- The label filters built by `Provider.ListInstances`: the controller-ID
label always, the pool-ID label when the pool ID is non-empty. -/
def listFilters (controllerID poolID : String) : List (String × String) :=
  [(GarmControllerIDLabel, controllerID)] ++
    (if poolID ≠ "" then [(GarmPoolIDLabel, poolID)] else [])

/-- `Provider.ListInstances`, run against an engine holding
`engineContainers` (the `ContainerList` call itself succeeding). -/
def listInstances (controllerID : String) (engineContainers : List Container)
    (poolID : String) : List ProviderInstance :=
  (engineContainerList engineContainers (listFilters controllerID poolID)).map
    containerSummaryToInstance

/-- `Provider.RemoveAllInstances`.  `listResult` is the outcome of the
engine's `ContainerList` call (filtered by the controller-ID label only);
`remove` is the `ContainerRemove` oracle by container ID.  Returns the Go
result together with the IDs for which a remove call was issued, in order;
each remove outcome is only logged (both branches continue identically). -/
def removeAllInstances (listResult : Except String (List Container))
    (remove : String → Except RemoveErr Unit) :
    Except String Unit × List String :=
  match listResult with
  | .error e => (.error ("failed to list containers for removal: " ++ e), [])
  | .ok containers =>
    (.ok (),
      containers.foldl
        (fun issued c =>
          match remove c.ID with
          | .ok _ => issued ++ [c.ID]
          | .error _ => issued ++ [c.ID])
        [])

/-! ## Registry-auth resolution (`getRegistryAuth`) -/

/-- `~/.docker/config.json`: the `auths` map, host → `{auth: base64(user:pass)}`,
as an association list. -/
structure DockerConfigFile where
  Auths : List (String × String)
deriving DecidableEq, Repr

/-- The external calls `getRegistryAuth` makes, as oracles: home-directory
lookup, file read, JSON decode of the credential file, base64 decode of a
stored auth blob, JSON encoding of a username/password auth config, and the
base64-url encoding of that JSON. -/
structure AuthEnv where
  userHomeDir : Option String
  readFile : String → Option String
  parseDockerConfig : String → Option DockerConfigFile
  base64Decode : String → Option String
  jsonMarshalAuth : String → String → Option String
  base64UrlEncode : String → String

/-- Go `strings.SplitN(s, sep, 2)` for a single-character separator: at most
two pieces, split at the first occurrence. -/
def splitN2 (s : String) (sep : Char) : List String :=
  match stringsSplit s sep with
  | [] => [s]
  | [x] => [x]
  | x :: rest => [x, String.intercalate (String.mk [sep]) rest]

/-- The registry-host derivation inside `getRegistryAuth`: default
`"docker.io"`; when the image reference contains `/` and the segment before
the first `/` contains `.` or `:`, that segment is the host. -/
def registryHostOf (image : String) : String :=
  if image.contains '/' then
    let first := (splitN2 image '/').headD ""
    if first.contains '.' ∨ first.contains ':' then first else "docker.io"
  else "docker.io"

/-- The credential-file path resolution at the top of `getRegistryAuth`:
the configured `docker_config_path`, else `$HOME/.docker/config.json`;
`none` when the home directory cannot be determined. -/
def resolveConfigPath (env : AuthEnv) (dockerConfigPath : String) : Option String :=
  if dockerConfigPath = "" then
    match env.userHomeDir with
    | none => none
    | some home => some (home ++ "/.docker/config.json")
  else some dockerConfigPath

/-- `getRegistryAuth`: resolves the base64 auth string for the image's
registry, degrading to `""` on every failure path. -/
def getRegistryAuth (env : AuthEnv) (dockerConfigPath : String)
    (image : String) : String :=
  match resolveConfigPath env dockerConfigPath with
  | none => ""
  | some configPath =>
    match env.readFile configPath with
    | none => ""
    | some data =>
      match env.parseDockerConfig data with
      | none => ""
      | some cfg =>
        let registryHost := registryHostOf image
        match cfg.Auths.lookup registryHost with
        | none => ""
        | some auth =>
          match env.base64Decode auth with
          | none => ""
          | some decoded =>
            let parts := splitN2 decoded ':'
            if parts.length ≠ 2 then ""
            else
              match env.jsonMarshalAuth (parts.headD "") (parts.getD 1 "") with
              | none => ""
              | some authJSON => env.base64UrlEncode authJSON

/-! ## Concrete fixtures used by the witness and counterexample theorems -/

/-- A configuration value with an explicit `remove_volumes: false`. -/
def cfgExplicitFalse : ProviderConfig :=
  { DockerHost := "", Runtime := "", Network := "", RemoveVolumes := false
    Privileged := false, Binds := [], AlwaysPull := false, DockerConfigPath := "" }

/-- A dead, OOM-killed container's inspect response. -/
def deadContainer : ContainerJSON :=
  { ID := "c0", Name := "/r0", State := some
      { Running := false, Paused := false, Dead := true, OOMKilled := true }
    ConfigLabels := [], NetworkSettings := none }

/-- A docker client whose inspect reports `deadContainer`. -/
def deadClient : DockerClient :=
  { imageInspectWithRaw := fun _ => .ok ()
    imagePull := fun _ _ => .ok ()
    containerCreate := fun _ _ _ => .ok "c0"
    containerStart := fun _ => .ok ()
    containerInspect := fun _ => .ok deadContainer }

/-- An oracle environment in which the credential file is unreadable. -/
def unreadableAuthEnv : AuthEnv :=
  { userHomeDir := some "/home/runner"
    readFile := fun _ => none
    parseDockerConfig := fun _ => none
    base64Decode := fun _ => none
    jsonMarshalAuth := fun _ _ => none
    base64UrlEncode := fun s => s }

/-- A container owned by controller `ctl-1`, pool `pool-1`, stopped. -/
def ownedStopped : Container :=
  { ID := "c1", Names := ["/runner-1"], State := "exited"
    Labels := [(GarmControllerIDLabel, "ctl-1"), (GarmPoolIDLabel, "pool-1")] }

/-- A container owned by another controller. -/
def foreignContainer : Container :=
  { ID := "c2", Names := ["/other"], State := "running"
    Labels := [(GarmControllerIDLabel, "ctl-2"), (GarmPoolIDLabel, "pool-1")] }

/-- The parse result `net/url.Parse` produces for `https://github.com`:
scheme `https`, host `github.com`, empty path. -/
def parseGitHubCom : String → Option URL := fun s =>
  if s = "https://github.com" then
    some { Scheme := "https", Host := "github.com", Path := "" }
  else none

/-- The parse result `net/url.Parse` produces for
`https://github.com/my-org/my-repo`. -/
def parseOrgRepo : String → Option URL := fun s =>
  if s = "https://github.com/my-org/my-repo" then
    some { Scheme := "https", Host := "github.com", Path := "/my-org/my-repo" }
  else none

/-- Three owned containers for the C7 witness. -/
def rmA : Container := { ID := "c1", Names := ["/r1"], State := "running", Labels := [] }

def rmB : Container := { ID := "c2", Names := ["/r2"], State := "running", Labels := [] }

def rmC : Container := { ID := "c3", Names := ["/r3"], State := "exited", Labels := [] }

/-- A remove oracle that fails for the middle container only. -/
def flakyRemove : String → Except RemoveErr Unit := fun id =>
  if id = "c2" then .error (.other "device busy") else .ok ()

/-- The bootstrap request used by the `createInstance` witnesses. -/
def sampleBootstrap : BootstrapInstance :=
  { Name := "runner-1", Image := "ghcr.io/org/img:tag"
    RepoURL := "https://github.com/my-org/my-repo"
    PoolID := "pool-1", Flavor := "default", OSType := "linux", OSArch := "amd64"
    Labels := ["l1"], GitHubRunnerGroup := "", MetadataURL := "http://md"
    InstanceToken := "tok", CallbackURL := "http://cb" }

/-- The inspect response of the started witness container: one network with
both addresses, one with neither. -/
def sampleInspect : ContainerJSON :=
  { ID := "cid-123", Name := "/runner-1"
    State := some { Running := true, Paused := false, Dead := false, OOMKilled := false }
    ConfigLabels := []
    NetworkSettings := some { Networks :=
      [ ("bridge", { IPAddress := "172.17.0.2", GlobalIPv6Address := "fd00::2" })
      , ("isolated", { IPAddress := "", GlobalIPv6Address := "" }) ] } }

/-- A docker client on which every `CreateInstance` step succeeds, with the
image initially absent. -/
def happyClient : DockerClient :=
  { imageInspectWithRaw := fun _ => .error .notFound
    imagePull := fun _ _ => .ok ()
    containerCreate := fun _ _ _ => .ok "cid-123"
    containerStart := fun _ => .ok ()
    containerInspect := fun _ => .ok sampleInspect }

/-- The provider configuration used by the witnesses. -/
def sampleCfg : ProviderConfig :=
  { DockerHost := "unix:///var/run/docker.sock", Runtime := "sysbox-runc"
    Network := "bridge", RemoveVolumes := true, Privileged := false
    Binds := [], AlwaysPull := false, DockerConfigPath := "" }

/-- The instance the witness run returns. -/
def sampleInstance : ProviderInstance :=
  { ProviderID := "cid-123", Name := "runner-1", Status := .running
    OSType := "linux", OSArch := "amd64", OSName := "linux", OSVersion := "unknown"
    Addresses := [ { Address := "172.17.0.2", addrType := "private" }
                 , { Address := "fd00::2", addrType := "private" } ] }

/-- Whether an engine call is an image pull. -/
def isPullCall : EngineCall → Bool
  | .imagePull _ => true
  | _ => false

/-- Whether an engine call is an image inspect. -/
def isImageInspectCall : EngineCall → Bool
  | .imageInspect _ => true
  | _ => false

/-- The inspect response of a started container with no network settings. -/
def noNetInspect : ContainerJSON :=
  { ID := "cid-9", Name := "/runner-1"
    State := some { Running := true, Paused := false, Dead := false, OOMKilled := false }
    ConfigLabels := [], NetworkSettings := none }

/-- A docker client whose post-start inspect reports no network settings. -/
def noNetClient : DockerClient :=
  { imageInspectWithRaw := fun _ => .ok ()
    imagePull := fun _ _ => .ok ()
    containerCreate := fun _ _ _ => .ok "cid-9"
    containerStart := fun _ => .ok ()
    containerInspect := fun _ => .ok noNetInspect }

/-- The instance such a run returns: running, with no addresses. -/
def noNetInstance : ProviderInstance :=
  { ProviderID := "cid-9", Name := "runner-1", Status := .running
    OSType := "linux", OSArch := "amd64", OSName := "linux", OSVersion := "unknown"
    Addresses := [] }

/-! ## Helper lemmas -/

/-- `setDefaults` always leaves `RemoveVolumes` true. -/
lemma setDefaults_removeVolumes (c : ProviderConfig) :
    (setDefaults c).RemoveVolumes = true := by
  cases hrv : c.RemoveVolumes <;>
    simp [setDefaults, hrv, apply_ite ProviderConfig.RemoveVolumes]

/-- The spec's description of the returned address list, for comparison with
the implementation's `containerToAddresses`: one entry per non-empty IPv4
address and one per non-empty IPv6 address, across all attached networks. -/
def addressesSpec (c : ContainerJSON) : List Address :=
  (match c.NetworkSettings with
    | none => ([] : List (String × EndpointSettings))
    | some ns => ns.Networks).flatMap fun nw =>
      (if nw.2.IPAddress ≠ "" then
        [({ Address := nw.2.IPAddress, addrType := "private" } : Address)] else []) ++
      (if nw.2.GlobalIPv6Address ≠ "" then
        [({ Address := nw.2.GlobalIPv6Address, addrType := "private" } : Address)] else [])

/-- The address-collecting fold of `containerToAddresses`, generalized over
its accumulator. -/
lemma containerToAddresses_foldl (l : List (String × EndpointSettings))
    (acc : List Address) :
    l.foldl
      (fun addrs nw =>
        let addrs :=
          if nw.2.IPAddress ≠ "" then
            addrs ++ [{ Address := nw.2.IPAddress, addrType := "private" }]
          else addrs
        if nw.2.GlobalIPv6Address ≠ "" then
          addrs ++ [{ Address := nw.2.GlobalIPv6Address, addrType := "private" }]
        else addrs)
      acc =
    acc ++ l.flatMap (fun nw =>
      (if nw.2.IPAddress ≠ "" then
        [({ Address := nw.2.IPAddress, addrType := "private" } : Address)] else []) ++
      (if nw.2.GlobalIPv6Address ≠ "" then
        [({ Address := nw.2.GlobalIPv6Address, addrType := "private" } : Address)] else [])) := by
  induction l generalizing acc with
  | nil => simp
  | cons nw rest ih =>
    rw [List.foldl_cons, ih]
    by_cases h4 : nw.2.IPAddress = "" <;> by_cases h6 : nw.2.GlobalIPv6Address = "" <;>
      simp [h4, h6]

/-- `containerToAddresses` produces exactly the spec's address list. -/
lemma containerToAddresses_eq_spec (c : ContainerJSON) :
    containerToAddresses c = addressesSpec c := by
  unfold containerToAddresses addressesSpec
  cases c.NetworkSettings with
  | none => rfl
  | some ns => simpa using containerToAddresses_foldl ns.Networks []

/-- Inversion of a successful `createInstance` run: success happens only when
the post-start inspect succeeded, and the returned instance is built from the
bootstrap request and that inspect response. -/
lemma createInstance_ok_shape (cfg : ProviderConfig) (controllerID : String)
    (cli : DockerClient) (parseURL : String → Option URL)
    (registryAuth : String → String) (bp : BootstrapInstance)
    (inst : ProviderInstance)
    (h : (createInstance cfg controllerID cli parseURL registryAuth bp).1 = .ok inst) :
    ∃ respID c, cli.containerInspect respID = .ok c ∧
      inst =
        { ProviderID := c.ID
          Name := bp.Name
          Status := .running
          OSType := bp.OSType
          OSArch := bp.OSArch
          OSName := "linux"
          OSVersion := "unknown"
          Addresses := containerToAddresses c } := by
  unfold createInstance at h
  repeat' (first
    | split at h
    | simp only [eq_self_iff_true, if_true, Bool.false_eq_true, if_false] at h)
  all_goals try exact Except.noConfusion h
  all_goals rw [Except.ok.injEq] at h
  all_goals exact ⟨_, _, by assumption, h.symm⟩

end GarmDocker

namespace GarmDocker

/-! ## Claim theorems -/

/-- Claim C9: after every successful configuration load (`NewConfig`), the
`RemoveVolumes` field is true, regardless of the configuration file's literal
value for that field. -/
theorem newConfig_removeVolumes (path : String) (loadResult : Except String Unit)
    (unmarshalResult : Except String ProviderConfig) (c : ProviderConfig)
    (h : newConfig path loadResult unmarshalResult = .ok c) :
    c.RemoveVolumes = true := by
  unfold newConfig at h
  split at h
  · exact absurd h (by simp)
  · cases hu : unmarshalResult with
    | error e => rw [hu] at h; exact absurd h (by simp)
    | ok c0 =>
      rw [hu] at h
      simp only [Except.ok.injEq] at h
      rw [← h]
      exact setDefaults_removeVolumes c0

/-- Witness for C9: loading a config whose file sets `remove_volumes: false`
still yields `RemoveVolumes = true`. -/
theorem newConfig_removeVolumes_witness :
    (setDefaults cfgExplicitFalse).RemoveVolumes = true :=
  newConfig_removeVolumes "provider.yaml" (.ok ()) (.ok cfgExplicitFalse)
    (setDefaults cfgExplicitFalse) rfl

/-- Claim C6: `DeleteInstance` returns success when the engine's remove call
reports not-found (idempotent delete), and a wrapped error for every other
removal failure. -/
theorem deleteInstance_idempotent (cfg : ProviderConfig)
    (remove : String → Bool → Bool → Except RemoveErr Unit) (instanceRef : String) :
    (remove instanceRef true cfg.RemoveVolumes = .error .notFound →
      deleteInstance cfg remove instanceRef = .ok ()) ∧
    (∀ e, remove instanceRef true cfg.RemoveVolumes = .error (.other e) →
      deleteInstance cfg remove instanceRef =
        .error ("failed to remove container " ++ instanceRef ++ ": " ++ e)) ∧
    (remove instanceRef true cfg.RemoveVolumes = .ok () →
      deleteInstance cfg remove instanceRef = .ok ()) := by
  refine ⟨fun h => ?_, fun e h => ?_, fun h => ?_⟩ <;>
    simp [deleteInstance, h]

/-- Witness for C6: removing an already-gone container succeeds. -/
theorem deleteInstance_idempotent_witness :
    deleteInstance cfgExplicitFalse (fun _ _ _ => .error .notFound) "gone" = .ok () :=
  (deleteInstance_idempotent cfgExplicitFalse (fun _ _ _ => .error .notFound) "gone").1 rfl

/-- Claim C4: `GetInstance` maps the full-inspect state to the instance
status: Running → running; otherwise Paused → stopped; otherwise Dead or
OOMKilled → error; any other state information → stopped; absent state
information → unknown. -/
theorem getInstance_status_mapping (cli : DockerClient) (ref : String)
    (c : ContainerJSON) :
    (cli.containerInspect ref = .ok c →
      getInstance cli ref = .ok (containerToInstance c)) ∧
    (∀ s, c.State = some s → s.Running = true →
      (containerToInstance c).Status = .running) ∧
    (∀ s, c.State = some s → s.Running = false → s.Paused = true →
      (containerToInstance c).Status = .stopped) ∧
    (∀ s, c.State = some s → s.Running = false → s.Paused = false →
      (s.Dead = true ∨ s.OOMKilled = true) →
      (containerToInstance c).Status = .error) ∧
    (∀ s, c.State = some s → s.Running = false → s.Paused = false →
      s.Dead = false → s.OOMKilled = false →
      (containerToInstance c).Status = .stopped) ∧
    (c.State = none → (containerToInstance c).Status = .unknown) := by
  refine ⟨fun h => ?_, fun s hs h1 => ?_, fun s hs h1 h2 => ?_,
    fun s hs h1 h2 h3 => ?_, fun s hs h1 h2 h3 h4 => ?_, fun h => ?_⟩
  · simp [getInstance, h]
  · simp [containerToInstance, hs, h1]
  · simp [containerToInstance, hs, h1, h2]
  · rcases h3 with h3 | h3 <;> simp [containerToInstance, hs, h1, h2, h3]
  · simp [containerToInstance, hs, h1, h2, h3, h4]
  · simp [containerToInstance, h]

/-- Witness for C4: a dead, OOM-killed container maps to status error. -/
theorem getInstance_status_mapping_witness :
    (containerToInstance deadContainer).Status = .error :=
  (getInstance_status_mapping deadClient "c0" deadContainer).2.2.2.1
    { Running := false, Paused := false, Dead := true, OOMKilled := true }
    rfl rfl rfl (Or.inl rfl)

/-- Claim C8: registry-auth resolution never fails its caller — every failure
path (home directory undeterminable, file unreadable, unparsable, missing
entry, undecodable auth blob, malformed `user:pass`, marshalling failure)
yields the empty string; and the registry host is the first `/`-separated
segment of the image reference when that segment contains `.` or `:`, else
`"docker.io"`. -/
theorem getRegistryAuth_degrades (env : AuthEnv) (dockerConfigPath image : String) :
    (dockerConfigPath = "" → env.userHomeDir = none →
      getRegistryAuth env dockerConfigPath image = "") ∧
    ((∀ p, env.readFile p = none) →
      getRegistryAuth env dockerConfigPath image = "") ∧
    ((∀ d, env.parseDockerConfig d = none) →
      getRegistryAuth env dockerConfigPath image = "") ∧
    ((∀ d f, env.parseDockerConfig d = some f →
        f.Auths.lookup (registryHostOf image) = none) →
      getRegistryAuth env dockerConfigPath image = "") ∧
    ((∀ a, env.base64Decode a = none) →
      getRegistryAuth env dockerConfigPath image = "") ∧
    ((∀ a d, env.base64Decode a = some d → (splitN2 d ':').length ≠ 2) →
      getRegistryAuth env dockerConfigPath image = "") ∧
    ((∀ u pw, env.jsonMarshalAuth u pw = none) →
      getRegistryAuth env dockerConfigPath image = "") ∧
    (image.contains '/' = false → registryHostOf image = "docker.io") ∧
    (image.contains '/' = true →
      (((splitN2 image '/').headD "").contains '.' = true ∨
        ((splitN2 image '/').headD "").contains ':' = true) →
      registryHostOf image = (splitN2 image '/').headD "") ∧
    (image.contains '/' = true →
      ((splitN2 image '/').headD "").contains '.' = false →
      ((splitN2 image '/').headD "").contains ':' = false →
      registryHostOf image = "docker.io") := by
  refine ⟨fun h1 h2 => ?_, fun hr => ?_, fun hp => ?_, fun hl => ?_,
    fun hd => ?_, fun hm => ?_, fun hj => ?_, fun hs => ?_,
    fun hs hc => ?_, fun hs hc1 hc2 => ?_⟩
  · simp [getRegistryAuth, resolveConfigPath, h1, h2]
  · unfold getRegistryAuth
    simp only [hr]
    split <;> rfl
  · unfold getRegistryAuth
    simp only [hp]
    repeat' split
    all_goals rfl
  · unfold getRegistryAuth
    split
    · rfl
    next cp hcp =>
      split
      · rfl
      next data hdata =>
        split
        · rfl
        next f hf => simp [hl data f hf]
  · unfold getRegistryAuth
    simp only [hd]
    repeat' split
    all_goals rfl
  · unfold getRegistryAuth
    split
    · rfl
    next cp hcp =>
      split
      · rfl
      next data hdata =>
        split
        · rfl
        next f hf =>
          dsimp only
          split
          · rfl
          next auth hauth =>
            split
            · rfl
            next decoded hde => simp [hm auth decoded hde]
  · unfold getRegistryAuth
    simp only [hj]
    repeat' split
    all_goals rfl
  · simp [registryHostOf, hs]
  · rcases hc with hc | hc <;> simp_all [registryHostOf]
  · simp_all [registryHostOf]

/-- Witness for C8: an unreadable credential file yields `""`, not an error. -/
theorem getRegistryAuth_degrades_witness :
    getRegistryAuth unreadableAuthEnv "" "ghcr.io/org/image:tag" = "" :=
  (getRegistryAuth_degrades unreadableAuthEnv "" "ghcr.io/org/image:tag").2.1
    (fun _ => rfl)

/-- Claim C5: `ListInstances` queries the engine with the controller-ID label
filter always present, and the pool-ID label filter exactly when the pool ID
is non-empty; containers lacking a matching controller-ID label (or with a
non-matching pool-ID label when filtered) are excluded while every matching
container — stopped ones included — is returned; summary states map
`"running"` → running, `"exited"` → stopped, anything else → unknown; and a
leading slash is stripped from the first reported name. -/
theorem listInstances_filtering (controllerID poolID : String)
    (engineContainers : List Container) :
    ((GarmControllerIDLabel, controllerID) ∈ listFilters controllerID poolID) ∧
    ((GarmPoolIDLabel, poolID) ∈ listFilters controllerID poolID ↔ poolID ≠ "") ∧
    (∀ c ∈ engineContainers,
      c.Labels.lookup GarmControllerIDLabel ≠ some controllerID →
      c ∉ engineContainerList engineContainers (listFilters controllerID poolID)) ∧
    (poolID ≠ "" → ∀ c ∈ engineContainers,
      c.Labels.lookup GarmPoolIDLabel ≠ some poolID →
      c ∉ engineContainerList engineContainers (listFilters controllerID poolID)) ∧
    (∀ c ∈ engineContainers,
      matchesLabelFilters (listFilters controllerID poolID) c = true →
      c ∈ engineContainerList engineContainers (listFilters controllerID poolID)) ∧
    (listInstances controllerID engineContainers poolID =
      (engineContainerList engineContainers (listFilters controllerID poolID)).map
        containerSummaryToInstance) ∧
    (∀ c : Container, c.State = "running" →
      (containerSummaryToInstance c).Status = .running) ∧
    (∀ c : Container, c.State = "exited" →
      (containerSummaryToInstance c).Status = .stopped) ∧
    (∀ c : Container, c.State ≠ "running" → c.State ≠ "exited" →
      (containerSummaryToInstance c).Status = .unknown) ∧
    (∀ (c : Container) (n : String) (rest : List String),
      c.Names = n :: rest → 0 < n.length → n.front = '/' →
      (containerSummaryToInstance c).Name = n.drop 1) := by
  refine ⟨?_, ?_, fun c hc hne hmem => ?_, fun hp c hc hne hmem => ?_,
    fun c hc hm => ?_, rfl, fun c h => ?_, fun c h => ?_, fun c h1 h2 => ?_,
    fun c n rest hn hlen hfr => ?_⟩
  · simp [listFilters]
  · by_cases hp : poolID = "" <;>
      simp [listFilters, hp, GarmPoolIDLabel, GarmControllerIDLabel]
  · rw [engineContainerList, List.mem_filter] at hmem
    have hall := hmem.2
    unfold matchesLabelFilters at hall
    rw [List.all_eq_true] at hall
    have h1 := hall (GarmControllerIDLabel, controllerID) (by simp [listFilters])
    exact hne (by simpa using h1)
  · rw [engineContainerList, List.mem_filter] at hmem
    have hall := hmem.2
    unfold matchesLabelFilters at hall
    rw [List.all_eq_true] at hall
    have h1 := hall (GarmPoolIDLabel, poolID) (by simp [listFilters, hp])
    exact hne (by simpa using h1)
  · exact List.mem_filter.mpr ⟨hc, hm⟩
  · simp [containerSummaryToInstance, h]
  · simp [containerSummaryToInstance, h]
  · simp [containerSummaryToInstance, h1, h2]
  · simp [containerSummaryToInstance, hn, hlen, hfr]

/-- Witness for C5: a container with a non-matching controller-ID label is
excluded from the listing. -/
theorem listInstances_filtering_witness :
    foreignContainer ∉
      engineContainerList [ownedStopped, foreignContainer]
        (listFilters "ctl-1" "pool-1") :=
  (listInstances_filtering "ctl-1" "pool-1" [ownedStopped, foreignContainer]).2.2.1
    foreignContainer (by decide) (by decide)

/-- Counterexample to claim C3: for the URL `https://github.com`, which has
zero path segments, extraction does not fail with `InvalidInput`; it succeeds
with an empty org, because the empty trimmed path splits into a single empty
segment. -/
theorem extractGitHubScopeDetails_zero_segments_counterexample :
    extractGitHubScopeDetails parseGitHubCom "https://github.com" =
      .ok { BaseURL := "https://github.com", Repo := "", Org := "", Enterprise := "" } := by
  rfl

/-- Claim C3 (amended): extraction fails for an empty or unparsable URL and
for a URL missing its scheme or host; one path segment sets the org, `enterprises/<e>` sets
the enterprise, two other segments set org and repo, three or more segments
fail; on success `BaseURL = scheme://host`.  A URL with zero path segments is
treated as a single empty segment (Go's `strings.Split` on the empty string),
so it succeeds with an empty org rather than failing. -/
theorem extractGitHubScopeDetails_cases (parseURL : String → Option URL)
    (url : String) :
    (url = "" →
      extractGitHubScopeDetails parseURL url = .error "no gitRepoURL supplied") ∧
    (url ≠ "" → parseURL url = none →
      extractGitHubScopeDetails parseURL url = .error ("invalid URL: " ++ url)) ∧
    (∀ u, url ≠ "" → parseURL url = some u → (u.Scheme = "" ∨ u.Host = "") →
      extractGitHubScopeDetails parseURL url = .error ("invalid URL: " ++ url)) ∧
    (∀ u, url ≠ "" → parseURL url = some u → u.Scheme ≠ "" → u.Host ≠ "" →
      (trimChar u.Path '/' = "" →
        extractGitHubScopeDetails parseURL url =
          .ok { BaseURL := u.Scheme ++ "://" ++ u.Host
                Repo := "", Org := "", Enterprise := "" }) ∧
      (∀ org, stringsSplit (trimChar u.Path '/') '/' = [org] →
        extractGitHubScopeDetails parseURL url =
          .ok { BaseURL := u.Scheme ++ "://" ++ u.Host
                Repo := "", Org := org, Enterprise := "" }) ∧
      (∀ ent, stringsSplit (trimChar u.Path '/') '/' = ["enterprises", ent] →
        extractGitHubScopeDetails parseURL url =
          .ok { BaseURL := u.Scheme ++ "://" ++ u.Host
                Repo := "", Org := "", Enterprise := ent }) ∧
      (∀ org repo, stringsSplit (trimChar u.Path '/') '/' = [org, repo] →
        org ≠ "enterprises" →
        extractGitHubScopeDetails parseURL url =
          .ok { BaseURL := u.Scheme ++ "://" ++ u.Host
                Repo := repo, Org := org, Enterprise := "" }) ∧
      (3 ≤ (stringsSplit (trimChar u.Path '/') '/').length →
        extractGitHubScopeDetails parseURL url =
          .error "URL does not match the expected patterns")) := by
  refine ⟨fun h => ?_, fun h1 h2 => ?_, fun u h1 h2 h3 => ?_,
    fun u h1 h2 h3 h4 => ⟨fun h5 => ?_, fun org h5 => ?_, fun ent h5 => ?_,
      fun org repo h5 h6 => ?_, fun h5 => ?_⟩⟩
  · simp [extractGitHubScopeDetails, h]
  · simp [extractGitHubScopeDetails, h1, h2]
  · simp [extractGitHubScopeDetails, h1, h2, h3]
  · have h5' : stringsSplit (trimChar u.Path '/') '/' = [""] := by rw [h5]; rfl
    simp [extractGitHubScopeDetails, h1, h2, h3, h4, h5']
  · simp [extractGitHubScopeDetails, h1, h2, h3, h4, h5]
  · simp [extractGitHubScopeDetails, h1, h2, h3, h4, h5]
  · simp [extractGitHubScopeDetails, h1, h2, h3, h4, h5, h6]
  · have hne1 : (stringsSplit (trimChar u.Path '/') '/').length ≠ 1 := by omega
    have hne2 : (stringsSplit (trimChar u.Path '/') '/').length ≠ 2 := by omega
    simp [extractGitHubScopeDetails, h1, h2, h3, h4, hne1, hne2]

/-- Witness for C3 (amended): `https://github.com/my-org/my-repo` extracts
org and repo with `BaseURL = https://github.com`. -/
theorem extractGitHubScopeDetails_cases_witness :
    extractGitHubScopeDetails parseOrgRepo "https://github.com/my-org/my-repo" =
      .ok { BaseURL := "https://github.com"
            Repo := "my-repo", Org := "my-org", Enterprise := "" } :=
  ((extractGitHubScopeDetails_cases parseOrgRepo
      "https://github.com/my-org/my-repo").2.2.2
    { Scheme := "https", Host := "github.com", Path := "/my-org/my-repo" }
    (by decide) rfl (by decide) (by decide)).2.2.2.1 "my-org" "my-repo"
    (by decide) (by decide)

/-- The step of `RemoveAllInstances`'s removal loop appends every owned
container's ID to the issued-call list whatever the removal outcome. -/
lemma removeAllInstances_issued (remove : String → Except RemoveErr Unit)
    (cs : List Container) (acc : List String) :
    cs.foldl
      (fun issued c =>
        match remove c.ID with
        | .ok _ => issued ++ [c.ID]
        | .error _ => issued ++ [c.ID])
      acc = acc ++ cs.map (fun c => c.ID) := by
  induction cs generalizing acc with
  | nil => simp
  | cons c cs ih =>
    rw [List.foldl_cons, ih]
    cases h : remove c.ID <;> simp [h]

/-- Claim C7: `RemoveAllInstances` fails exactly when the listing fails; when
the listing succeeds, a remove call is issued for every owned container —
individual removal failures neither abort the loop nor fail the operation. -/
theorem removeAllInstances_best_effort
    (listResult : Except String (List Container))
    (remove : String → Except RemoveErr Unit) :
    (∀ e, listResult = .error e →
      (removeAllInstances listResult remove).1 =
        .error ("failed to list containers for removal: " ++ e)) ∧
    (∀ cs, listResult = .ok cs →
      (removeAllInstances listResult remove).1 = .ok () ∧
      (removeAllInstances listResult remove).2 = cs.map (fun c => c.ID)) := by
  constructor
  · intro e he
    simp [removeAllInstances, he]
  · intro cs hcs
    constructor
    · simp [removeAllInstances, hcs]
    · simp only [removeAllInstances, hcs]
      exact removeAllInstances_issued remove cs []

/-- Witness for C7: with one of three removals failing, all three removals
are issued and the call still succeeds. -/
theorem removeAllInstances_best_effort_witness :
    (removeAllInstances (.ok [rmA, rmB, rmC]) flakyRemove).1 = .ok () ∧
    (removeAllInstances (.ok [rmA, rmB, rmC]) flakyRemove).2 =
      [rmA, rmB, rmC].map (fun c => c.ID) :=
  (removeAllInstances_best_effort (.ok [rmA, rmB, rmC]) flakyRemove).2
    [rmA, rmB, rmC] rfl

/-- Claim C1: a successful `CreateInstance` returns an instance with status
running, provider ID equal to the ID in the engine's inspect response, OS
type and arch copied from the request, OS name `"linux"`, and one address
per non-empty IPv4 and per non-empty IPv6 address across all attached
networks of the inspected container. -/
theorem createInstance_success_contract (cfg : ProviderConfig)
    (controllerID : String) (cli : DockerClient)
    (parseURL : String → Option URL) (registryAuth : String → String)
    (bp : BootstrapInstance) (inst : ProviderInstance)
    (h : (createInstance cfg controllerID cli parseURL registryAuth bp).1 = .ok inst) :
    inst.Status = .running ∧
    inst.OSType = bp.OSType ∧
    inst.OSArch = bp.OSArch ∧
    inst.OSName = "linux" ∧
    inst.Name = bp.Name ∧
    ∃ respID c, cli.containerInspect respID = .ok c ∧
      inst.ProviderID = c.ID ∧
      inst.Addresses = addressesSpec c := by
  obtain ⟨respID, c, hc, hi⟩ :=
    createInstance_ok_shape cfg controllerID cli parseURL registryAuth bp inst h
  subst hi
  exact ⟨rfl, rfl, rfl, rfl, rfl, respID, c, hc, rfl, containerToAddresses_eq_spec c⟩

/-- Witness for C1: a concrete successful run produces the contract's
instance shape. -/
theorem createInstance_success_contract_witness :
    sampleInstance.Status = .running ∧
    sampleInstance.OSType = sampleBootstrap.OSType ∧
    sampleInstance.OSArch = sampleBootstrap.OSArch ∧
    sampleInstance.OSName = "linux" ∧
    sampleInstance.Name = sampleBootstrap.Name ∧
    ∃ respID c, happyClient.containerInspect respID = .ok c ∧
      sampleInstance.ProviderID = c.ID ∧
      sampleInstance.Addresses = addressesSpec c :=
  createInstance_success_contract sampleCfg "ctl-1" happyClient parseOrgRepo
    (fun _ => "") sampleBootstrap sampleInstance (by rfl)

/-- Claim C2: with always-pull configured, `CreateInstance` pulls without any
image-inspect call; without it, a not-found image inspection leads to exactly
one pull, issued right after the inspect and before any further engine call
(in particular before the container-create call); any other inspection error
is returned with no pull and no create issued. -/
theorem createInstance_pull_policy (cfg : ProviderConfig) (controllerID : String)
    (cli : DockerClient) (parseURL : String → Option URL)
    (registryAuth : String → String) (bp : BootstrapInstance) :
    (cfg.AlwaysPull = true →
      0 < ((createInstance cfg controllerID cli parseURL registryAuth bp).2.countP
        isPullCall) ∧
      ((createInstance cfg controllerID cli parseURL registryAuth bp).2.countP
        isImageInspectCall) = 0) ∧
    (cfg.AlwaysPull = false →
      cli.imageInspectWithRaw bp.Image = .error .notFound →
      ((createInstance cfg controllerID cli parseURL registryAuth bp).2.countP
        isPullCall) = 1 ∧
      ((createInstance cfg controllerID cli parseURL registryAuth bp).2.take 2 =
        [EngineCall.imageInspect bp.Image, EngineCall.imagePull bp.Image])) ∧
    (cfg.AlwaysPull = false →
      ∀ e, cli.imageInspectWithRaw bp.Image = .error (.other e) →
      (createInstance cfg controllerID cli parseURL registryAuth bp).1 =
        .error ("failed to inspect image " ++ bp.Image ++ ": " ++ e) ∧
      (createInstance cfg controllerID cli parseURL registryAuth bp).2 =
        [EngineCall.imageInspect bp.Image]) := by
  refine ⟨fun ha => ?_, fun ha hni => ?_, fun ha e he => ?_⟩
  · unfold createInstance
    simp only [ha, eq_self_iff_true, if_true, Bool.false_eq_true, if_false]
    repeat' split
    all_goals simp_all [isPullCall, isImageInspectCall]
  · unfold createInstance
    simp only [ha, hni, eq_self_iff_true, if_true, Bool.false_eq_true, if_false]
    repeat' split
    all_goals simp_all [isPullCall, isImageInspectCall]
  · unfold createInstance
    simp [ha, he]

/-- Witness for C2: on the concrete not-found run, exactly one pull is
issued, directly after the image inspect and before everything else. -/
theorem createInstance_pull_policy_witness :
    ((createInstance sampleCfg "ctl-1" happyClient parseOrgRepo (fun _ => "")
        sampleBootstrap).2.countP isPullCall) = 1 ∧
    ((createInstance sampleCfg "ctl-1" happyClient parseOrgRepo (fun _ => "")
        sampleBootstrap).2.take 2 =
      [EngineCall.imageInspect sampleBootstrap.Image,
        EngineCall.imagePull sampleBootstrap.Image]) :=
  (createInstance_pull_policy sampleCfg "ctl-1" happyClient parseOrgRepo
    (fun _ => "") sampleBootstrap).2.1 rfl rfl

/-- Claim C10: address extraction is total — an inspect response without
network settings yields the empty address list, and a `CreateInstance` run
whose post-start inspect carries no network settings still succeeds, with an
empty `Addresses` list. -/
theorem createInstance_nil_network_settings (cfg : ProviderConfig)
    (controllerID : String) (cli : DockerClient)
    (parseURL : String → Option URL) (registryAuth : String → String)
    (bp : BootstrapInstance) (inst : ProviderInstance)
    (h : (createInstance cfg controllerID cli parseURL registryAuth bp).1 = .ok inst)
    (hns : ∀ respID c, cli.containerInspect respID = .ok c → c.NetworkSettings = none) :
    inst.Addresses = [] ∧ inst.Status = .running ∧
    (∀ c : ContainerJSON, c.NetworkSettings = none → containerToAddresses c = []) := by
  obtain ⟨respID, c, hc, hi⟩ :=
    createInstance_ok_shape cfg controllerID cli parseURL registryAuth bp inst h
  subst hi
  refine ⟨?_, rfl, fun c' hc' => by simp [containerToAddresses, hc']⟩
  have hn := hns respID c hc
  simp [containerToAddresses, hn]

/-- Witness for C10: the concrete no-network-settings run succeeds and
returns an empty address list. -/
theorem createInstance_nil_network_settings_witness :
    noNetInstance.Addresses = [] ∧ noNetInstance.Status = .running ∧
    (∀ c : ContainerJSON, c.NetworkSettings = none → containerToAddresses c = []) :=
  createInstance_nil_network_settings sampleCfg "ctl-1" noNetClient parseOrgRepo
    (fun _ => "") sampleBootstrap noNetInstance (by rfl)
    (fun _ c hc => by
      have h : c = noNetInspect := (Except.ok.inj hc).symm
      subst h
      rfl)

end GarmDocker
